import Mathlib

/-!
Verification of the strip-stitching tool in src/photo_tools/stitch.py.

The program partitions the output width into one vertical strip per source
image and copies (or blends) pixel data from each source into its strip.
The embedding below models decoded images as triples of channel grids and
translates read_strip, the strip-boundary arithmetic, the five-tap blend,
and create_strips' main loop, including numpy uint8 wrap-around, numpy
silent slice clipping, the shape requirement of the column-range
assignment, and the per-strip progress observation whose integer-truncated
channel mean is undefined (NaN, so int() raises ValueError) on an empty
strip.
-/

/-- A 2D array of integer samples, modelling a numpy ndarray of shape
(height, width).  The function val gives the sample at (row, column);
only indices with row < height and column < width correspond to cells of
the underlying array. -/
structure Grid where
  height : Nat
  width : Nat
  val : Nat → Nat → Nat

instance : Inhabited Grid := ⟨⟨0, 0, fun _ _ => 0⟩⟩

/-- A decoded RGB image: three channel grids, as produced by np.array on a
PIL RGB image and unpacked along the last axis (stitch.py lines 38-40).
Decoding yields three grids of identical shape. -/
structure RGBImage where
  r : Grid
  g : Grid
  b : Grid

instance : Inhabited RGBImage := ⟨⟨default, default, default⟩⟩

/-- PIL reports the image width (stitch.py line 37); after decoding every
channel grid of the image has this width. -/
def RGBImage.width (image : RGBImage) : Nat := image.r.width

/-- numpy column slice a[:, s:e] for nonnegative bounds: all rows are
kept, and the kept columns are [min s width, min e width); bounds beyond
the array clip silently and an inverted range is empty. -/
def sliceCols (g : Grid) (s e : Nat) : Grid :=
  ⟨g.height, min e g.width - min s g.width,
   fun row c => g.val row (min s g.width + c)⟩

/-- read_strip (stitch.py lines 25-43): read a vertical strip of an
image, returning the three channel grids restricted to columns
[start, end).  start defaults to 0 and end to the image width when
omitted (lines 35-36). -/
def read_strip (image : RGBImage) (startOpt endOpt : Option Nat) :
    Grid × Grid × Grid :=
  let s := startOpt.getD 0
  let e := endOpt.getD image.width
  (sliceCols image.r s e, sliceCols image.g s e, sliceCols image.b s e)

/-- The start column of strip i (stitch.py line 66):
start = index * strip_width with strip_width = image_width // number_of_files. -/
def stripStart (image_width number_of_files i : Nat) : Nat :=
  i * (image_width / number_of_files)

/-- The end column of strip i (stitch.py lines 67-68): the last index
gets image_width, every other index gets (index + 1) * strip_width. -/
def stripEnd (image_width number_of_files i : Nat) : Nat :=
  if i = number_of_files - 1 then image_width
  else (i + 1) * (image_width / number_of_files)

/-- The strip assignment: one half-open column interval per source index. -/
def strips (image_width number_of_files : Nat) : List (Nat × Nat) :=
  (List.range number_of_files).map fun i =>
    (stripStart image_width number_of_files i,
     stripEnd image_width number_of_files i)

/-- One element of a blended strip (stitch.py lines 84-86):
left2 // 5 + left // 5 + center // 5 + right // 5 + right2 // 5 on
numpy uint8 data, so every addition wraps mod 256 (the divisions by 5
cannot leave the uint8 range). -/
def blendVal (left2 left center right right2 : Nat) : Nat :=
  ((((left2 / 5 + left / 5) % 256 + center / 5) % 256 + right / 5) % 256
    + right2 / 5) % 256

/-- Element-wise five-tap blend of equal-shaped channel grids
(stitch.py lines 84-86). -/
def blendGrid (g1 g2 g3 g4 g5 : Grid) : Grid :=
  ⟨g1.height, g1.width, fun row c =>
    blendVal (g1.val row c) (g2.val row c) (g3.val row c) (g4.val row c)
      (g5.val row c)⟩

/-- The averaging branch of the loop body (stitch.py lines 73-86): read
the strips of the images at offsets -2, -1, 0, +1, +2 over the same
column range and blend them channel-wise. -/
def stripBlend (file_paths : List RGBImage) (i s e : Nat) :
    Grid × Grid × Grid :=
  let left2 := read_strip (file_paths.getD (i - 2) default) (some s) (some e)
  let left := read_strip (file_paths.getD (i - 1) default) (some s) (some e)
  let center := read_strip (file_paths.getD i default) (some s) (some e)
  let right := read_strip (file_paths.getD (i + 1) default) (some s) (some e)
  let right2 := read_strip (file_paths.getD (i + 2) default) (some s) (some e)
  (blendGrid left2.1 left.1 center.1 right.1 right2.1,
   blendGrid left2.2.1 left.2.1 center.2.1 right.2.1 right2.2.1,
   blendGrid left2.2.2 left.2.2 center.2.2 right.2.2 right2.2.2)

/-- The strip data produced for index i by the loop body of create_strips
(stitch.py lines 72-88): the blend is used exactly when averaging is on
and 1 < index < number_of_files - 2 (for number_of_files < 3 the Python
right-hand side is negative and the comparison false, matching truncated
Nat subtraction because the guard already requires 1 < i). -/
def stripData (file_paths : List RGBImage) (averaging : Bool)
    (image_width number_of_files i : Nat) : Grid × Grid × Grid :=
  if averaging = true ∧ 1 < i ∧ i < number_of_files - 2 then
    stripBlend file_paths i (stripStart image_width number_of_files i)
      (stripEnd image_width number_of_files i)
  else
    read_strip (file_paths.getD i default)
      (some (stripStart image_width number_of_files i))
      (some (stripEnd image_width number_of_files i))

/-- numpy column-range assignment dest[:, s:e] = strip (stitch.py lines
90-92): columns [min s width, min e width) of dest are replaced by the
strip's columns, everything else is unchanged.  create_strips checks the
shape compatibility that numpy enforces before using this. -/
def writeStrip (dest strip : Grid) (s e : Nat) : Grid :=
  ⟨dest.height, dest.width, fun row c =>
    if min s dest.width ≤ c ∧ c < min e dest.width then
      strip.val row (c - min s dest.width)
    else dest.val row c⟩

/-- Sum of all samples of a grid. -/
def Grid.sum (g : Grid) : Nat :=
  (List.range g.height).foldl
    (fun acc row =>
      (List.range g.width).foldl (fun acc2 c => acc2 + g.val row c) acc)
    0

/-- int(array.mean()) (stitch.py lines 94-96).  numpy's mean of an empty
array is NaN and int(NaN) raises ValueError, so the result is undefined
exactly when the grid has no cells; otherwise int() truncates the
nonnegative float mean, i.e. floor-divides the sum by the cell count
(exact for the sample counts and 8-bit values in scope). -/
def Grid.meanInt (g : Grid) : Option Nat :=
  if g.height * g.width = 0 then none
  else some (g.sum / (g.height * g.width))

/-- The ways a run of create_strips can raise (all are ValueError in the
reference code). -/
inductive StitchError where
  /-- unpacking first_file from an empty file list (stitch.py line 56) -/
  | invalidInput : StitchError
  /-- int() applied to the NaN mean of an empty strip (lines 94-96) -/
  | meanOfEmpty : StitchError
  /-- numpy rejects a column-range assignment whose strip shape does not
  match the target range (lines 90-92) -/
  | shapeMismatch : StitchError

/-- One progress observation (stitch.py lines 97-101): 1-based index,
total count, column range, and the truncated per-channel means.  The
source filename of the message is not modelled. -/
structure Progress where
  index : Nat
  total : Nat
  startCol : Nat
  endCol : Nat
  meanR : Nat
  meanG : Nat
  meanB : Nat

/-- The first decoded image's R channel, which establishes the output
shape (stitch.py lines 56-58): first_image_data, *_ = read_strip(first_file). -/
def firstImageData (file_paths : List RGBImage) : Grid :=
  (read_strip (file_paths.headD default) none none).1

/-- image_width of create_strips (stitch.py line 58): the width of the
first image's decoded R channel. -/
def outWidth (file_paths : List RGBImage) : Nat :=
  (firstImageData file_paths).width

/-- The output height: the height of the first image's decoded R channel. -/
def outHeight (file_paths : List RGBImage) : Nat :=
  (firstImageData file_paths).height

/-- np.zeros_like (stitch.py lines 59-61): a zero grid of the same shape. -/
def zerosLike (g : Grid) : Grid :=
  ⟨g.height, g.width, fun _ _ => 0⟩

/-- One iteration of the strip loop (stitch.py lines 65-101) acting on
the accumulator (final_r, final_g, final_b, progress so far): compute the
strip data for index i, perform the three column-range assignments
(numpy raises if a strip's shape does not match the assigned range), and
record the progress observation (which raises if a channel mean is taken
of an empty strip).  The reference code raises at the first offending
channel; the error kind is the same either way. -/
def processIndex (file_paths : List RGBImage) (averaging : Bool)
    (image_width number_of_files : Nat)
    (acc : Grid × Grid × Grid × List Progress) (i : Nat) :
    Except StitchError (Grid × Grid × Grid × List Progress) :=
  let s := stripStart image_width number_of_files i
  let e := stripEnd image_width number_of_files i
  let nd := stripData file_paths averaging image_width number_of_files i
  if nd.1.height = acc.1.height ∧
     nd.1.width = min e acc.1.width - min s acc.1.width ∧
     nd.2.1.height = acc.2.1.height ∧
     nd.2.1.width = min e acc.2.1.width - min s acc.2.1.width ∧
     nd.2.2.height = acc.2.2.1.height ∧
     nd.2.2.width = min e acc.2.2.1.width - min s acc.2.2.1.width then
    match nd.1.meanInt, nd.2.1.meanInt, nd.2.2.meanInt with
    | some mr, some mg, some mb =>
      .ok (writeStrip acc.1 nd.1 s e, writeStrip acc.2.1 nd.2.1 s e,
           writeStrip acc.2.2.1 nd.2.2 s e,
           acc.2.2.2 ++ [⟨i + 1, number_of_files, s, e, mr, mg, mb⟩])
    | _, _, _ => .error .meanOfEmpty
  else .error .shapeMismatch

/-- The strip loop of create_strips over a list of indices, threading the
accumulator and aborting at the first raised error. -/
def stripLoop (file_paths : List RGBImage) (averaging : Bool)
    (image_width number_of_files : Nat) :
    List Nat → Grid × Grid × Grid × List Progress →
    Except StitchError (Grid × Grid × Grid × List Progress)
  | [], acc => .ok acc
  | i :: rest, acc =>
    match processIndex file_paths averaging image_width number_of_files acc i with
    | .error err => .error err
    | .ok acc2 =>
      stripLoop file_paths averaging image_width number_of_files rest acc2

/-- create_strips (stitch.py lines 46-103).  Unpacking the first file of
an empty list raises ValueError (line 56).  Otherwise the first image
fixes the output shape, three zero grids are allocated, and the loop
processes every index of the file list in order.  In the source,
averaging defaults to True; callers here pass it explicitly. -/
def create_strips (file_paths : List RGBImage) (averaging : Bool) :
    Except StitchError (Grid × Grid × Grid × List Progress) :=
  match file_paths with
  | [] => .error .invalidInput
  | _ :: _ =>
    stripLoop file_paths averaging (outWidth file_paths) file_paths.length
      (List.range file_paths.length)
      (zerosLike (firstImageData file_paths),
       zerosLike (firstImageData file_paths),
       zerosLike (firstImageData file_paths), [])

/-- write_image (stitch.py lines 106-115): np.dstack interleaves the
three channel grids into one pixel grid, which is then encoded.  The
encoded file's pixel content is modelled as the interleaved pixel
function. -/
def write_image (source_data : Grid × Grid × Grid) :
    Nat → Nat → Nat × Nat × Nat :=
  fun row c =>
    (source_data.1.val row c, source_data.2.1.val row c,
     source_data.2.2.val row c)

/-- main (stitch.py lines 118-127) after input discovery: run
create_strips (with its default averaging=True) on the decoded sources
and write the result; if create_strips raises, no output file is
created (modelled as none). -/
def main_model (file_paths : List RGBImage) :
    Option (Nat → Nat → Nat × Nat × Nat) :=
  match create_strips file_paths true with
  | .ok (final_r, final_g, final_b, _) =>
    some (write_image (final_r, final_g, final_b))
  | .error _ => none

/-- True when a run of create_strips completed without raising. -/
def isOk {ε α : Type} : Except ε α → Bool
  | .ok _ => true
  | .error _ => false

/-- The error a run of create_strips raised, if any. -/
def errorOf {ε α : Type} : Except ε α → Option ε
  | .ok _ => none
  | .error e => some e

/-- The sample of the returned R grid at (row, c), when the run succeeded. -/
def okRVal (res : Except StitchError (Grid × Grid × Grid × List Progress))
    (row c : Nat) : Option Nat :=
  match res with
  | .ok (final_r, _, _, _) => some (final_r.val row c)
  | .error _ => none

/-- The sample of the returned G grid at (row, c), when the run succeeded. -/
def okGVal (res : Except StitchError (Grid × Grid × Grid × List Progress))
    (row c : Nat) : Option Nat :=
  match res with
  | .ok (_, final_g, _, _) => some (final_g.val row c)
  | .error _ => none

/-- The sample of the returned B grid at (row, c), when the run succeeded. -/
def okBVal (res : Except StitchError (Grid × Grid × Grid × List Progress))
    (row c : Nat) : Option Nat :=
  match res with
  | .ok (_, _, final_b, _) => some (final_b.val row c)
  | .error _ => none

/-- All images of the list are decoded grids of shape (h, w) in every
channel, as the data model requires of one run's sources. -/
def UniformDims (file_paths : List RGBImage) (h w : Nat) : Prop :=
  ∀ img ∈ file_paths,
    img.r.height = h ∧ img.r.width = w ∧ img.g.height = h ∧
    img.g.width = w ∧ img.b.height = h ∧ img.b.width = w

/-- Every in-range sample of every image of the list fits in a uint8
channel value, as decoding guarantees. -/
def Bounded255 (file_paths : List RGBImage) (h w : Nat) : Prop :=
  ∀ img ∈ file_paths, ∀ row < h, ∀ c < w,
    img.r.val row c ≤ 255 ∧ img.g.val row c ≤ 255 ∧ img.b.val row c ≤ 255

/-- Two grids agree as arrays: same shape and same samples at every
in-range cell. -/
def Grid.Equiv (a b : Grid) : Prop :=
  a.height = b.height ∧ a.width = b.width ∧
  ∀ row c, row < a.height → c < a.width → a.val row c = b.val row c

/-- Stated from the spec's words for comparison with read_strip: the
grid holding the columns of the intersection of [s, e) with
[0, width), in order. -/
def specIntersectionSlice (g : Grid) (s e : Nat) : Grid :=
  ⟨g.height, min e g.width - s, fun row c => g.val row (s + c)⟩

/-- A solid-color test image of shape (h, w) with the given channel
values. -/
def constImage (h w vr vg vb : Nat) : RGBImage :=
  ⟨⟨h, w, fun _ _ => vr⟩, ⟨h, w, fun _ _ => vg⟩, ⟨h, w, fun _ _ => vb⟩⟩

/-- Five 1-by-5 source images whose R values are 0, 0, 5, 0, 0: a
concrete input on which blending index 2 is visible in the output. -/
def imgsFive : List RGBImage :=
  [constImage 1 5 0 0 0, constImage 1 5 0 0 0, constImage 1 5 5 7 9,
   constImage 1 5 0 0 0, constImage 1 5 0 0 0]

/-- Five 1-by-5 source images with distinct channel values, all within
uint8 range. -/
def imgsBlend : List RGBImage :=
  [constImage 1 5 10 20 30, constImage 1 5 11 21 31, constImage 1 5 12 22 32,
   constImage 1 5 13 23 33, constImage 1 5 14 24 34]

/-- Three 1-by-3 source images with distinct channel values. -/
def imgsThree : List RGBImage :=
  [constImage 1 3 10 40 70, constImage 1 3 20 50 80, constImage 1 3 30 60 90]

/-- Two 1-by-1 source images: number_of_files (2) exceeds image_width
(1), so every strip but the last is empty. -/
def imgsTiny : List RGBImage :=
  [constImage 1 1 7 7 7, constImage 1 1 9 9 9]

/-- A single 1-by-3 image whose R samples are the column index plus one. -/
def imgRamp : RGBImage :=
  ⟨⟨1, 3, fun _ c => c + 1⟩, ⟨1, 3, fun _ c => c + 11⟩,
   ⟨1, 3, fun _ c => c + 21⟩⟩

/-! ### Strip-boundary arithmetic -/

theorem stripEnd_le_width (W N i : Nat) (hi : i < N) : stripEnd W N i ≤ W := by
  unfold stripEnd
  split
  · exact le_refl W
  · calc (i + 1) * (W / N) ≤ N * (W / N) := Nat.mul_le_mul_right _ hi
      _ ≤ W := by rw [mul_comm]; exact Nat.div_mul_le_self W N

theorem stripStart_le_stripEnd (W N i : Nat) (hi : i < N) :
    stripStart W N i ≤ stripEnd W N i := by
  unfold stripStart stripEnd
  split
  · next h =>
    subst h
    calc (N - 1) * (W / N) ≤ N * (W / N) :=
          Nat.mul_le_mul_right _ (Nat.sub_le N 1)
      _ ≤ W := by rw [mul_comm]; exact Nat.div_mul_le_self W N
  · exact Nat.mul_le_mul_right _ (Nat.le_succ i)

theorem stripStart_le_width (W N i : Nat) (hi : i < N) : stripStart W N i ≤ W :=
  le_trans (stripStart_le_stripEnd W N i hi) (stripEnd_le_width W N i hi)

theorem stripEnd_le_stripStart_of_lt (W N i j : Nat) (hij : i < j) (hj : j < N) :
    stripEnd W N i ≤ stripStart W N j := by
  unfold stripStart stripEnd
  rw [if_neg (by omega)]
  exact Nat.mul_le_mul_right _ hij

theorem strips_cover_arith (W N : Nat) (hN : 0 < N) :
    (strips W N).length = N ∧
    stripStart W N 0 = 0 ∧
    stripEnd W N (N - 1) = W ∧
    (∀ i, i + 1 < N → stripEnd W N i = stripStart W N (i + 1)) ∧
    (∀ x, x < W ↔
      ∃ i, i < N ∧ stripStart W N i ≤ x ∧ x < stripEnd W N i) ∧
    (∀ i j x, i < N → j < N →
      stripStart W N i ≤ x → x < stripEnd W N i →
      stripStart W N j ≤ x → x < stripEnd W N j → i = j) := by
  refine ⟨by simp [strips], by simp [stripStart], by simp [stripEnd], ?_, ?_, ?_⟩
  · intro i hi
    unfold stripStart stripEnd
    rw [if_neg (by omega)]
  · intro x
    constructor
    · intro hx
      by_cases hq : W / N = 0
      · exact ⟨N - 1, by omega, by simp [stripStart, hq],
          by simp [stripEnd, hx]⟩
      · by_cases hc : x / (W / N) < N - 1
        · refine ⟨x / (W / N), by omega, Nat.div_mul_le_self x (W / N), ?_⟩
          have he : stripEnd W N (x / (W / N)) =
              (x / (W / N) + 1) * (W / N) := if_neg (by omega)
          rw [he]
          calc x = (W / N) * (x / (W / N)) + x % (W / N) :=
                (Nat.div_add_mod x (W / N)).symm
            _ < (W / N) * (x / (W / N)) + (W / N) := by
                have := Nat.mod_lt x (Nat.pos_of_ne_zero hq); omega
            _ = (x / (W / N) + 1) * (W / N) := by ring
        · refine ⟨N - 1, by omega, ?_, by simp [stripEnd, hx]⟩
          calc (N - 1) * (W / N) ≤ (x / (W / N)) * (W / N) :=
                Nat.mul_le_mul_right _ (by omega)
            _ ≤ x := Nat.div_mul_le_self x (W / N)
    · rintro ⟨i, hi, _, hxe⟩
      exact lt_of_lt_of_le hxe (stripEnd_le_width W N i hi)
  · intro i j x hi hj hix hxe hjx hxj
    by_contra hne2
    rcases Nat.lt_or_ge i j with h | h
    · have := stripEnd_le_stripStart_of_lt W N i j h hj
      omega
    · have hji : j < i := by omega
      have := stripEnd_le_stripStart_of_lt W N j i hji hi
      omega

theorem last_width_arith (W N : Nat) (hN : 0 < N) :
    stripEnd W N (N - 1) - stripStart W N (N - 1) = W - (N - 1) * (W / N) ∧
    ∀ i, i < N →
      stripEnd W N i - stripStart W N i ≤ W - (N - 1) * (W / N) := by
  have hlast : stripEnd W N (N - 1) - stripStart W N (N - 1) =
      W - (N - 1) * (W / N) := by
    simp [stripEnd, stripStart]
  refine ⟨hlast, ?_⟩
  intro i hi
  by_cases hiN : i = N - 1
  · rw [hiN, hlast]
  · have he : stripEnd W N i = (i + 1) * (W / N) := if_neg hiN
    have hwidth : stripEnd W N i - stripStart W N i = W / N := by
      rw [he]; unfold stripStart
      rw [Nat.succ_mul, Nat.add_sub_cancel_left]
    rw [hwidth]
    have hq : (N - 1) * (W / N) + (W / N) = N * (W / N) := by
      cases N with
      | zero => omega
      | succ n => simp [Nat.succ_sub_one, Nat.succ_mul]
    have hW : N * (W / N) ≤ W := by
      rw [mul_comm]; exact Nat.div_mul_le_self W N
    exact Nat.le_sub_of_add_le (by omega)

/-- C1: for every non-empty ordered source list the strip assignment of
create_strips yields exactly N half-open intervals that are contiguous,
non-overlapping, and exactly cover the interval from 0 to the image
width. -/
theorem strips_exactly_cover (file_paths : List RGBImage)
    (hne : file_paths ≠ []) :
    (strips (outWidth file_paths) file_paths.length).length =
      file_paths.length ∧
    stripStart (outWidth file_paths) file_paths.length 0 = 0 ∧
    stripEnd (outWidth file_paths) file_paths.length
      (file_paths.length - 1) = outWidth file_paths ∧
    (∀ i, i + 1 < file_paths.length →
      stripEnd (outWidth file_paths) file_paths.length i =
        stripStart (outWidth file_paths) file_paths.length (i + 1)) ∧
    (∀ x, x < outWidth file_paths ↔
      ∃ i, i < file_paths.length ∧
        stripStart (outWidth file_paths) file_paths.length i ≤ x ∧
        x < stripEnd (outWidth file_paths) file_paths.length i) ∧
    (∀ i j x, i < file_paths.length → j < file_paths.length →
      stripStart (outWidth file_paths) file_paths.length i ≤ x →
      x < stripEnd (outWidth file_paths) file_paths.length i →
      stripStart (outWidth file_paths) file_paths.length j ≤ x →
      x < stripEnd (outWidth file_paths) file_paths.length j → i = j) :=
  strips_cover_arith (outWidth file_paths) file_paths.length
    (List.length_pos.mpr hne)

theorem strips_exactly_cover_witness :
    imgsThree ≠ [] ∧
    ((strips (outWidth imgsThree) imgsThree.length).length =
      imgsThree.length ∧
    stripStart (outWidth imgsThree) imgsThree.length 0 = 0 ∧
    stripEnd (outWidth imgsThree) imgsThree.length
      (imgsThree.length - 1) = outWidth imgsThree ∧
    (∀ i, i + 1 < imgsThree.length →
      stripEnd (outWidth imgsThree) imgsThree.length i =
        stripStart (outWidth imgsThree) imgsThree.length (i + 1)) ∧
    (∀ x, x < outWidth imgsThree ↔
      ∃ i, i < imgsThree.length ∧
        stripStart (outWidth imgsThree) imgsThree.length i ≤ x ∧
        x < stripEnd (outWidth imgsThree) imgsThree.length i) ∧
    (∀ i j x, i < imgsThree.length → j < imgsThree.length →
      stripStart (outWidth imgsThree) imgsThree.length i ≤ x →
      x < stripEnd (outWidth imgsThree) imgsThree.length i →
      stripStart (outWidth imgsThree) imgsThree.length j ≤ x →
      x < stripEnd (outWidth imgsThree) imgsThree.length j → i = j)) :=
  ⟨by simp [imgsThree], strips_exactly_cover imgsThree (by simp [imgsThree])⟩

/-- C9: the last strip's width equals
image_width - (N - 1) * (image_width // N), and this is at least every
other strip's width. -/
theorem last_strip_widest (file_paths : List RGBImage)
    (hne : file_paths ≠ []) :
    stripEnd (outWidth file_paths) file_paths.length
        (file_paths.length - 1) -
      stripStart (outWidth file_paths) file_paths.length
        (file_paths.length - 1) =
      outWidth file_paths -
        (file_paths.length - 1) *
          (outWidth file_paths / file_paths.length) ∧
    ∀ i, i < file_paths.length →
      stripEnd (outWidth file_paths) file_paths.length i -
        stripStart (outWidth file_paths) file_paths.length i ≤
      outWidth file_paths -
        (file_paths.length - 1) *
          (outWidth file_paths / file_paths.length) :=
  last_width_arith (outWidth file_paths) file_paths.length
    (List.length_pos.mpr hne)

theorem last_strip_widest_witness :
    imgsThree ≠ [] ∧
    (stripEnd (outWidth imgsThree) imgsThree.length
        (imgsThree.length - 1) -
      stripStart (outWidth imgsThree) imgsThree.length
        (imgsThree.length - 1) =
      outWidth imgsThree -
        (imgsThree.length - 1) *
          (outWidth imgsThree / imgsThree.length) ∧
    ∀ i, i < imgsThree.length →
      stripEnd (outWidth imgsThree) imgsThree.length i -
        stripStart (outWidth imgsThree) imgsThree.length i ≤
      outWidth imgsThree -
        (imgsThree.length - 1) *
          (outWidth imgsThree / imgsThree.length)) :=
  ⟨by simp [imgsThree], last_strip_widest imgsThree (by simp [imgsThree])⟩

/-! ### Blend arithmetic, error cases, and clipping -/

theorem blendVal_eq_sum_of_le (a b c d e : Nat) (ha : a ≤ 255)
    (hb : b ≤ 255) (hc : c ≤ 255) (hd : d ≤ 255) (he : e ≤ 255) :
    blendVal a b c d e = a / 5 + b / 5 + c / 5 + d / 5 + e / 5 ∧
    blendVal a b c d e ≤ 255 := by
  unfold blendVal
  omega

/-- C10: for uint8 inputs every element of a blended strip is at most
255: each floor-divided term is at most 51, the five wrap-around
additions never actually wrap, and the blend equals the plain five-term
sum. -/
theorem blend_no_overflow (g1 g2 g3 g4 g5 : Grid)
    (h1 : ∀ row c : Nat, g1.val row c ≤ 255)
    (h2 : ∀ row c : Nat, g2.val row c ≤ 255)
    (h3 : ∀ row c : Nat, g3.val row c ≤ 255)
    (h4 : ∀ row c : Nat, g4.val row c ≤ 255)
    (h5 : ∀ row c : Nat, g5.val row c ≤ 255) :
    ∀ row c : Nat,
      (blendGrid g1 g2 g3 g4 g5).val row c =
        g1.val row c / 5 + g2.val row c / 5 + g3.val row c / 5 +
          g4.val row c / 5 + g5.val row c / 5 ∧
      (blendGrid g1 g2 g3 g4 g5).val row c ≤ 255 := by
  intro row c
  exact blendVal_eq_sum_of_le _ _ _ _ _ (h1 row c) (h2 row c) (h3 row c)
    (h4 row c) (h5 row c)

theorem blend_no_overflow_witness :
    (∀ row c : Nat, (constImage 1 5 255 0 0).r.val row c ≤ 255) ∧
    (∀ row c : Nat,
      (blendGrid (constImage 1 5 255 0 0).r (constImage 1 5 255 0 0).r
          (constImage 1 5 255 0 0).r (constImage 1 5 255 0 0).r
          (constImage 1 5 255 0 0).r).val row c =
        (constImage 1 5 255 0 0).r.val row c / 5 +
          (constImage 1 5 255 0 0).r.val row c / 5 +
          (constImage 1 5 255 0 0).r.val row c / 5 +
          (constImage 1 5 255 0 0).r.val row c / 5 +
          (constImage 1 5 255 0 0).r.val row c / 5 ∧
      (blendGrid (constImage 1 5 255 0 0).r (constImage 1 5 255 0 0).r
          (constImage 1 5 255 0 0).r (constImage 1 5 255 0 0).r
          (constImage 1 5 255 0 0).r).val row c ≤ 255) :=
  ⟨fun _ _ => by simp [constImage],
   blend_no_overflow _ _ _ _ _
    (fun _ _ => by simp [constImage]) (fun _ _ => by simp [constImage])
    (fun _ _ => by simp [constImage]) (fun _ _ => by simp [constImage])
    (fun _ _ => by simp [constImage])⟩

/-- C7: called on an empty ordered source list, create_strips fails with
the InvalidInput condition (the ValueError raised when unpacking the
first file), and main writes no output file. -/
theorem create_strips_empty_invalid (averaging : Bool) :
    create_strips [] averaging = .error .invalidInput ∧
    main_model [] = none :=
  ⟨rfl, rfl⟩

theorem sliceCols_equiv_intersection (g : Grid) (s e : Nat) :
    Grid.Equiv (sliceCols g s e) (specIntersectionSlice g s e) := by
  refine ⟨rfl, ?_, ?_⟩
  · show min e g.width - min s g.width = min e g.width - s
    omega
  · intro row c _ hc
    show g.val row (min s g.width + c) = g.val row (s + c)
    have hlt : c < min e g.width - min s g.width := hc
    have hmin : min s g.width = s := by omega
    rw [hmin]

/-- C8: when the column bounds violate 0 <= start <= end <= image.width,
read_strip does not raise; it silently clips via slicing semantics and
returns, for each channel, exactly the columns of the intersection of
[start, end) with the valid column range. -/
theorem read_strip_clips (image : RGBImage) (s e : Nat)
    (hviol : ¬(s ≤ e ∧ e ≤ image.width)) :
    Grid.Equiv (read_strip image (some s) (some e)).1
      (specIntersectionSlice image.r s e) ∧
    Grid.Equiv (read_strip image (some s) (some e)).2.1
      (specIntersectionSlice image.g s e) ∧
    Grid.Equiv (read_strip image (some s) (some e)).2.2
      (specIntersectionSlice image.b s e) :=
  ⟨sliceCols_equiv_intersection image.r s e,
   sliceCols_equiv_intersection image.g s e,
   sliceCols_equiv_intersection image.b s e⟩

theorem read_strip_clips_witness :
    ¬((1 : Nat) ≤ 5 ∧ 5 ≤ imgRamp.width) ∧
    (Grid.Equiv (read_strip imgRamp (some 1) (some 5)).1
      (specIntersectionSlice imgRamp.r 1 5) ∧
    Grid.Equiv (read_strip imgRamp (some 1) (some 5)).2.1
      (specIntersectionSlice imgRamp.g 1 5) ∧
    Grid.Equiv (read_strip imgRamp (some 1) (some 5)).2.2
      (specIntersectionSlice imgRamp.b 1 5)) :=
  ⟨by simp [imgRamp, RGBImage.width],
   read_strip_clips imgRamp 1 5 (by simp [imgRamp, RGBImage.width])⟩

/-- C6 evidence: on a source list with more files (2) than image columns
(1) every strip but the last is empty, and create_strips does not
complete: taking int() of the NaN mean of the first, empty strip in the
progress observation raises ValueError and aborts the run.  The claim
that the run completes and that the observation cannot alter control
flow is therefore false of the code. -/
theorem create_strips_empty_strip_crash :
    outWidth imgsTiny < imgsTiny.length ∧
    errorOf (create_strips imgsTiny true) = some StitchError.meanOfEmpty :=
  ⟨by decide, rfl⟩

/-! ### Loop lemmas -/

theorem range_split (n i : Nat) (hi : i < n) :
    List.range n = List.range i ++ i :: List.range' (i + 1) (n - (i + 1)) := by
  have h2 : i :: List.range' (i + 1) (n - (i + 1)) = List.range' i (n - i) := by
    have h : n - i = (n - (i + 1)) + 1 := by omega
    rw [h, List.range'_succ]
  have h3 : List.range' 0 i ++ List.range' i (n - i) = List.range' 0 n := by
    have h := List.range'_append_1 0 i (n - i)
    simp only [Nat.zero_add] at h
    rw [h, show n - i + i = n by omega]
  rw [List.range_eq_range', List.range_eq_range', h2, h3]

theorem processIndex_ok (file_paths : List RGBImage) (averaging : Bool)
    (W N : Nat) (acc acc2 : Grid × Grid × Grid × List Progress) (i : Nat)
    (h : processIndex file_paths averaging W N acc i = .ok acc2) :
    acc2.1 = writeStrip acc.1 (stripData file_paths averaging W N i).1
      (stripStart W N i) (stripEnd W N i) ∧
    acc2.2.1 = writeStrip acc.2.1 (stripData file_paths averaging W N i).2.1
      (stripStart W N i) (stripEnd W N i) ∧
    acc2.2.2.1 = writeStrip acc.2.2.1 (stripData file_paths averaging W N i).2.2
      (stripStart W N i) (stripEnd W N i) := by
  simp only [processIndex] at h
  split at h
  · split at h
    · next mr mg mb hmr hmg hmb =>
      cases h
      exact ⟨rfl, rfl, rfl⟩
    · exact absurd h (by simp)
  · exact absurd h (by simp)

theorem processIndex_dims (file_paths : List RGBImage) (averaging : Bool)
    (W N : Nat) (acc acc2 : Grid × Grid × Grid × List Progress) (i : Nat)
    (h : processIndex file_paths averaging W N acc i = .ok acc2) :
    acc2.1.height = acc.1.height ∧ acc2.1.width = acc.1.width ∧
    acc2.2.1.height = acc.2.1.height ∧ acc2.2.1.width = acc.2.1.width ∧
    acc2.2.2.1.height = acc.2.2.1.height ∧
    acc2.2.2.1.width = acc.2.2.1.width := by
  obtain ⟨h1, h2, h3⟩ := processIndex_ok file_paths averaging W N acc acc2 i h
  rw [h1, h2, h3]
  exact ⟨rfl, rfl, rfl, rfl, rfl, rfl⟩

theorem stripLoop_append (file_paths : List RGBImage) (averaging : Bool)
    (W N : Nat) (L1 L2 : List Nat)
    (acc : Grid × Grid × Grid × List Progress) :
    stripLoop file_paths averaging W N (L1 ++ L2) acc =
      match stripLoop file_paths averaging W N L1 acc with
      | .error err => .error err
      | .ok mid => stripLoop file_paths averaging W N L2 mid := by
  induction L1 generalizing acc with
  | nil => simp [stripLoop]
  | cons i L1 ih =>
    simp only [List.cons_append, stripLoop]
    cases h : processIndex file_paths averaging W N acc i with
    | error err => simp
    | ok acc2 => simp [ih]

theorem stripLoop_dims (file_paths : List RGBImage) (averaging : Bool)
    (W N : Nat) (L : List Nat) :
    ∀ (acc out : Grid × Grid × Grid × List Progress),
    stripLoop file_paths averaging W N L acc = .ok out →
    out.1.height = acc.1.height ∧ out.1.width = acc.1.width ∧
    out.2.1.height = acc.2.1.height ∧ out.2.1.width = acc.2.1.width ∧
    out.2.2.1.height = acc.2.2.1.height ∧
    out.2.2.1.width = acc.2.2.1.width := by
  induction L with
  | nil =>
    intro acc out h
    injection h with h2
    subst h2
    exact ⟨rfl, rfl, rfl, rfl, rfl, rfl⟩
  | cons i L ih =>
    intro acc out h
    simp only [stripLoop] at h
    cases hp : processIndex file_paths averaging W N acc i with
    | error err => rw [hp] at h; cases h
    | ok acc2 =>
      rw [hp] at h
      have hd := processIndex_dims file_paths averaging W N acc acc2 i hp
      have hrec := ih acc2 out h
      omega

theorem stripLoop_preserve (file_paths : List RGBImage) (averaging : Bool)
    (W N : Nat) (L : List Nat) (row x : Nat) :
    ∀ (acc out : Grid × Grid × Grid × List Progress),
    stripLoop file_paths averaging W N L acc = .ok out →
    (∀ j ∈ L, ¬(min (stripStart W N j) acc.1.width ≤ x ∧
      x < min (stripEnd W N j) acc.1.width)) →
    acc.2.1.width = acc.1.width → acc.2.2.1.width = acc.1.width →
    out.1.val row x = acc.1.val row x ∧
    out.2.1.val row x = acc.2.1.val row x ∧
    out.2.2.1.val row x = acc.2.2.1.val row x := by
  induction L with
  | nil =>
    intro acc out h _ _ _
    injection h with h2
    subst h2
    exact ⟨rfl, rfl, rfl⟩
  | cons i L ih =>
    intro acc out h hL hw2 hw3
    simp only [stripLoop] at h
    cases hp : processIndex file_paths averaging W N acc i with
    | error err => rw [hp] at h; cases h
    | ok acc2 =>
      rw [hp] at h
      obtain ⟨e1, e2, e3⟩ := processIndex_ok file_paths averaging W N acc acc2 i hp
      have hd := processIndex_dims file_paths averaging W N acc acc2 i hp
      have hti := hL i (List.mem_cons_self i L)
      have hv1 : acc2.1.val row x = acc.1.val row x := by
        rw [e1]
        simp only [writeStrip]
        rw [if_neg hti]
      have hv2 : acc2.2.1.val row x = acc.2.1.val row x := by
        rw [e2]
        simp only [writeStrip]
        rw [hw2, if_neg hti]
      have hv3 : acc2.2.2.1.val row x = acc.2.2.1.val row x := by
        rw [e3]
        simp only [writeStrip]
        rw [hw3, if_neg hti]
      have hrec := ih acc2 out h
        (by
          intro j hj
          have := hL j (List.mem_cons_of_mem i hj)
          rw [hd.2.1]
          exact this)
        (by rw [hd.2.2.2.1, hd.2.1, hw2])
        (by rw [hd.2.2.2.2.2, hd.2.1, hw3])
      exact ⟨hrec.1.trans hv1, hrec.2.1.trans hv2, hrec.2.2.trans hv3⟩

theorem processIndex_val (file_paths : List RGBImage) (averaging : Bool)
    (W N : Nat) (acc acc2 : Grid × Grid × Grid × List Progress)
    (i row x : Nat)
    (hp : processIndex file_paths averaging W N acc i = .ok acc2)
    (hs : min (stripStart W N i) acc.1.width ≤ x)
    (he : x < min (stripEnd W N i) acc.1.width)
    (hw2 : acc.2.1.width = acc.1.width)
    (hw3 : acc.2.2.1.width = acc.1.width) :
    acc2.1.val row x = (stripData file_paths averaging W N i).1.val row
      (x - min (stripStart W N i) acc.1.width) ∧
    acc2.2.1.val row x = (stripData file_paths averaging W N i).2.1.val row
      (x - min (stripStart W N i) acc.1.width) ∧
    acc2.2.2.1.val row x = (stripData file_paths averaging W N i).2.2.val row
      (x - min (stripStart W N i) acc.1.width) := by
  obtain ⟨e1, e2, e3⟩ := processIndex_ok file_paths averaging W N acc acc2 i hp
  refine ⟨?_, ?_, ?_⟩
  · rw [e1]
    simp only [writeStrip]
    rw [if_pos ⟨hs, he⟩]
  · rw [e2]
    simp only [writeStrip]
    rw [hw2, if_pos ⟨hs, he⟩]
  · rw [e3]
    simp only [writeStrip]
    rw [hw3, if_pos ⟨hs, he⟩]

theorem create_strips_strip_val (file_paths : List RGBImage)
    (averaging : Bool) (i row x : Nat) (hi : i < file_paths.length)
    (hok : isOk (create_strips file_paths averaging) = true)
    (hsx : stripStart (outWidth file_paths) file_paths.length i ≤ x)
    (hxe : x < stripEnd (outWidth file_paths) file_paths.length i) :
    okRVal (create_strips file_paths averaging) row x =
      some ((stripData file_paths averaging (outWidth file_paths)
        file_paths.length i).1.val row
          (x - stripStart (outWidth file_paths) file_paths.length i)) ∧
    okGVal (create_strips file_paths averaging) row x =
      some ((stripData file_paths averaging (outWidth file_paths)
        file_paths.length i).2.1.val row
          (x - stripStart (outWidth file_paths) file_paths.length i)) ∧
    okBVal (create_strips file_paths averaging) row x =
      some ((stripData file_paths averaging (outWidth file_paths)
        file_paths.length i).2.2.val row
          (x - stripStart (outWidth file_paths) file_paths.length i)) := by
  obtain ⟨out, hout0⟩ : ∃ out, create_strips file_paths averaging = .ok out := by
    cases h : create_strips file_paths averaging with
    | error err => rw [h] at hok; simp [isOk] at hok
    | ok out => exact ⟨out, rfl⟩
  have hne : file_paths ≠ [] := by
    intro hnil
    rw [hnil] at hout0
    simp [create_strips] at hout0
  have hcs : create_strips file_paths averaging =
      stripLoop file_paths averaging (outWidth file_paths) file_paths.length
        (List.range file_paths.length)
        (zerosLike (firstImageData file_paths),
         zerosLike (firstImageData file_paths),
         zerosLike (firstImageData file_paths), []) := by
    cases file_paths with
    | nil => exact absurd rfl hne
    | cons f rest => rfl
  have hout := hout0
  rw [hcs, range_split file_paths.length i hi, stripLoop_append] at hout
  cases hpre : stripLoop file_paths averaging (outWidth file_paths)
      file_paths.length (List.range i)
      (zerosLike (firstImageData file_paths),
       zerosLike (firstImageData file_paths),
       zerosLike (firstImageData file_paths), []) with
  | error err => rw [hpre] at hout; cases hout
  | ok mid =>
    rw [hpre] at hout
    simp only [stripLoop] at hout
    cases hstep : processIndex file_paths averaging (outWidth file_paths)
        file_paths.length mid i with
    | error err => rw [hstep] at hout; cases hout
    | ok mid2 =>
      rw [hstep] at hout
      have hmidd := stripLoop_dims file_paths averaging (outWidth file_paths)
        file_paths.length (List.range i) _ mid hpre
      have hmw1 : mid.1.width = outWidth file_paths := hmidd.2.1
      have hmw2 : mid.2.1.width = outWidth file_paths := hmidd.2.2.2.1
      have hmw3 : mid.2.2.1.width = outWidth file_paths := hmidd.2.2.2.2.2
      have hsle : stripStart (outWidth file_paths) file_paths.length i ≤
          outWidth file_paths := stripStart_le_width _ _ _ hi
      have hele : stripEnd (outWidth file_paths) file_paths.length i ≤
          outWidth file_paths := stripEnd_le_width _ _ _ hi
      have hmins : min (stripStart (outWidth file_paths) file_paths.length i)
          mid.1.width = stripStart (outWidth file_paths) file_paths.length i := by
        rw [hmw1]; exact min_eq_left hsle
      have hmine : min (stripEnd (outWidth file_paths) file_paths.length i)
          mid.1.width = stripEnd (outWidth file_paths) file_paths.length i := by
        rw [hmw1]; exact min_eq_left hele
      have hstepval := processIndex_val file_paths averaging
        (outWidth file_paths) file_paths.length mid mid2 i row x hstep
        (by rw [hmins]; exact hsx) (by rw [hmine]; exact hxe)
        (by rw [hmw2, hmw1]) (by rw [hmw3, hmw1])
      have hd2 := processIndex_dims file_paths averaging (outWidth file_paths)
        file_paths.length mid mid2 i hstep
      have hm2w1 : mid2.1.width = outWidth file_paths := by
        rw [hd2.2.1, hmw1]
      have hxW : x < outWidth file_paths := lt_of_lt_of_le hxe hele
      have hpres := stripLoop_preserve file_paths averaging
        (outWidth file_paths) file_paths.length
        (List.range' (i + 1) (file_paths.length - (i + 1))) row x mid2 out hout
        (by
          intro j hj
          have hjb := List.mem_range'_1.mp hj
          have hjN : j < file_paths.length := by omega
          have hij : i < j := by omega
          intro hcon
          rw [hm2w1] at hcon
          have h1 : stripEnd (outWidth file_paths) file_paths.length i ≤
              stripStart (outWidth file_paths) file_paths.length j :=
            stripEnd_le_stripStart_of_lt _ _ _ _ hij hjN
          have h2 := hcon.1
          omega)
        (by rw [hd2.2.2.2.1, hmw2, hm2w1])
        (by rw [hd2.2.2.2.2.2, hmw3, hm2w1])
      rw [hout0]
      simp only [okRVal, okGVal, okBVal]
      rw [hpres.1, hpres.2.1, hpres.2.2,
        hstepval.1, hstepval.2.1, hstepval.2.2, hmins]
      exact ⟨rfl, rfl, rfl⟩

theorem getD_mem_of_lt (l : List RGBImage) (i : Nat) (h : i < l.length) :
    l.getD i default ∈ l := by
  rw [List.getD_eq_getElem l default h]
  exact List.getElem_mem h

theorem stripBlend_val_eq (file_paths : List RGBImage) (H W i s e row x : Nat)
    (hu : UniformDims file_paths H W) (hb : Bounded255 file_paths H W)
    (hlen : i + 2 < file_paths.length) (hrow : row < H)
    (hsW : s ≤ W) (hsx : s ≤ x) (hxe : x < e) (heW : e ≤ W) :
    (stripBlend file_paths i s e).1.val row (x - s) =
      (file_paths.getD (i - 2) default).r.val row x / 5 +
      (file_paths.getD (i - 1) default).r.val row x / 5 +
      (file_paths.getD i default).r.val row x / 5 +
      (file_paths.getD (i + 1) default).r.val row x / 5 +
      (file_paths.getD (i + 2) default).r.val row x / 5 ∧
    (stripBlend file_paths i s e).2.1.val row (x - s) =
      (file_paths.getD (i - 2) default).g.val row x / 5 +
      (file_paths.getD (i - 1) default).g.val row x / 5 +
      (file_paths.getD i default).g.val row x / 5 +
      (file_paths.getD (i + 1) default).g.val row x / 5 +
      (file_paths.getD (i + 2) default).g.val row x / 5 ∧
    (stripBlend file_paths i s e).2.2.val row (x - s) =
      (file_paths.getD (i - 2) default).b.val row x / 5 +
      (file_paths.getD (i - 1) default).b.val row x / 5 +
      (file_paths.getD i default).b.val row x / 5 +
      (file_paths.getD (i + 1) default).b.val row x / 5 +
      (file_paths.getD (i + 2) default).b.val row x / 5 := by
  have hm2 : file_paths.getD (i - 2) default ∈ file_paths :=
    getD_mem_of_lt _ _ (by omega)
  have hm1 : file_paths.getD (i - 1) default ∈ file_paths :=
    getD_mem_of_lt _ _ (by omega)
  have hm0 : file_paths.getD i default ∈ file_paths :=
    getD_mem_of_lt _ _ (by omega)
  have hp1 : file_paths.getD (i + 1) default ∈ file_paths :=
    getD_mem_of_lt _ _ (by omega)
  have hp2 : file_paths.getD (i + 2) default ∈ file_paths :=
    getD_mem_of_lt _ _ (by omega)
  have hxW : x < W := lt_of_lt_of_le hxe heW
  have hxs : s + (x - s) = x := by omega
  refine ⟨?_, ?_, ?_⟩
  · simp only [stripBlend, blendGrid, read_strip, sliceCols, Option.getD_some]
    rw [(hu _ hm2).2.1, (hu _ hm1).2.1, (hu _ hm0).2.1, (hu _ hp1).2.1,
      (hu _ hp2).2.1, min_eq_left hsW, hxs]
    exact (blendVal_eq_sum_of_le _ _ _ _ _
      (hb _ hm2 row hrow x hxW).1 (hb _ hm1 row hrow x hxW).1
      (hb _ hm0 row hrow x hxW).1 (hb _ hp1 row hrow x hxW).1
      (hb _ hp2 row hrow x hxW).1).1
  · simp only [stripBlend, blendGrid, read_strip, sliceCols, Option.getD_some]
    rw [(hu _ hm2).2.2.2.1, (hu _ hm1).2.2.2.1, (hu _ hm0).2.2.2.1,
      (hu _ hp1).2.2.2.1, (hu _ hp2).2.2.2.1, min_eq_left hsW, hxs]
    exact (blendVal_eq_sum_of_le _ _ _ _ _
      (hb _ hm2 row hrow x hxW).2.1 (hb _ hm1 row hrow x hxW).2.1
      (hb _ hm0 row hrow x hxW).2.1 (hb _ hp1 row hrow x hxW).2.1
      (hb _ hp2 row hrow x hxW).2.1).1
  · simp only [stripBlend, blendGrid, read_strip, sliceCols, Option.getD_some]
    rw [(hu _ hm2).2.2.2.2.2, (hu _ hm1).2.2.2.2.2, (hu _ hm0).2.2.2.2.2,
      (hu _ hp1).2.2.2.2.2, (hu _ hp2).2.2.2.2.2, min_eq_left hsW, hxs]
    exact (blendVal_eq_sum_of_le _ _ _ _ _
      (hb _ hm2 row hrow x hxW).2.2 (hb _ hm1 row hrow x hxW).2.2
      (hb _ hm0 row hrow x hxW).2.2 (hb _ hp1 row hrow x hxW).2.2
      (hb _ hp2 row hrow x hxW).2.2).1

/-- C5: with averaging off, the output of create_strips on the columns of
strip i is bit-identical, on each channel, to reading that column range
directly from source image i with read_strip. -/
theorem no_averaging_identity (file_paths : List RGBImage) (i row x : Nat)
    (hi : i < file_paths.length)
    (hok : isOk (create_strips file_paths false) = true)
    (hsx : stripStart (outWidth file_paths) file_paths.length i ≤ x)
    (hxe : x < stripEnd (outWidth file_paths) file_paths.length i) :
    okRVal (create_strips file_paths false) row x =
      some ((read_strip (file_paths.getD i default)
        (some (stripStart (outWidth file_paths) file_paths.length i))
        (some (stripEnd (outWidth file_paths) file_paths.length i))).1.val
          row (x - stripStart (outWidth file_paths) file_paths.length i)) ∧
    okGVal (create_strips file_paths false) row x =
      some ((read_strip (file_paths.getD i default)
        (some (stripStart (outWidth file_paths) file_paths.length i))
        (some (stripEnd (outWidth file_paths) file_paths.length i))).2.1.val
          row (x - stripStart (outWidth file_paths) file_paths.length i)) ∧
    okBVal (create_strips file_paths false) row x =
      some ((read_strip (file_paths.getD i default)
        (some (stripStart (outWidth file_paths) file_paths.length i))
        (some (stripEnd (outWidth file_paths) file_paths.length i))).2.2.val
          row (x - stripStart (outWidth file_paths) file_paths.length i)) := by
  have h := create_strips_strip_val file_paths false i row x hi hok hsx hxe
  simp only [stripData] at h
  rw [if_neg (show ¬(false = true ∧ 1 < i ∧ i < file_paths.length - 2) by
    simp)] at h
  exact h

theorem no_averaging_identity_witness :
    1 < imgsThree.length ∧
    isOk (create_strips imgsThree false) = true ∧
    stripStart (outWidth imgsThree) imgsThree.length 1 ≤ 1 ∧
    1 < stripEnd (outWidth imgsThree) imgsThree.length 1 ∧
    (okRVal (create_strips imgsThree false) 0 1 =
      some ((read_strip (imgsThree.getD 1 default)
        (some (stripStart (outWidth imgsThree) imgsThree.length 1))
        (some (stripEnd (outWidth imgsThree) imgsThree.length 1))).1.val
          0 (1 - stripStart (outWidth imgsThree) imgsThree.length 1)) ∧
    okGVal (create_strips imgsThree false) 0 1 =
      some ((read_strip (imgsThree.getD 1 default)
        (some (stripStart (outWidth imgsThree) imgsThree.length 1))
        (some (stripEnd (outWidth imgsThree) imgsThree.length 1))).2.1.val
          0 (1 - stripStart (outWidth imgsThree) imgsThree.length 1)) ∧
    okBVal (create_strips imgsThree false) 0 1 =
      some ((read_strip (imgsThree.getD 1 default)
        (some (stripStart (outWidth imgsThree) imgsThree.length 1))
        (some (stripEnd (outWidth imgsThree) imgsThree.length 1))).2.2.val
          0 (1 - stripStart (outWidth imgsThree) imgsThree.length 1))) :=
  ⟨by decide, by decide, by decide, by decide,
   no_averaging_identity imgsThree 1 0 1 (by decide) (by decide) (by decide)
     (by decide)⟩

/-- C3: the blend is used for index i exactly when averaging is enabled
and 1 < i < number_of_files - 2 (so indices 0, 1, N-2 and N-1 are
excluded); every other index's strip is read directly from source image
i via the Strip Reader. -/
theorem blend_guard_iff (file_paths : List RGBImage) (averaging : Bool)
    (i row x : Nat) (hi : i < file_paths.length)
    (hok : isOk (create_strips file_paths averaging) = true)
    (hsx : stripStart (outWidth file_paths) file_paths.length i ≤ x)
    (hxe : x < stripEnd (outWidth file_paths) file_paths.length i) :
    ((averaging = true ∧ 1 < i ∧ i < file_paths.length - 2) →
      okRVal (create_strips file_paths averaging) row x =
        some ((stripBlend file_paths i
          (stripStart (outWidth file_paths) file_paths.length i)
          (stripEnd (outWidth file_paths) file_paths.length i)).1.val
            row (x - stripStart (outWidth file_paths) file_paths.length i)) ∧
      okGVal (create_strips file_paths averaging) row x =
        some ((stripBlend file_paths i
          (stripStart (outWidth file_paths) file_paths.length i)
          (stripEnd (outWidth file_paths) file_paths.length i)).2.1.val
            row (x - stripStart (outWidth file_paths) file_paths.length i)) ∧
      okBVal (create_strips file_paths averaging) row x =
        some ((stripBlend file_paths i
          (stripStart (outWidth file_paths) file_paths.length i)
          (stripEnd (outWidth file_paths) file_paths.length i)).2.2.val
            row (x - stripStart (outWidth file_paths) file_paths.length i))) ∧
    (¬(averaging = true ∧ 1 < i ∧ i < file_paths.length - 2) →
      okRVal (create_strips file_paths averaging) row x =
        some ((read_strip (file_paths.getD i default)
          (some (stripStart (outWidth file_paths) file_paths.length i))
          (some (stripEnd (outWidth file_paths) file_paths.length i))).1.val
            row (x - stripStart (outWidth file_paths) file_paths.length i)) ∧
      okGVal (create_strips file_paths averaging) row x =
        some ((read_strip (file_paths.getD i default)
          (some (stripStart (outWidth file_paths) file_paths.length i))
          (some (stripEnd (outWidth file_paths) file_paths.length i))).2.1.val
            row (x - stripStart (outWidth file_paths) file_paths.length i)) ∧
      okBVal (create_strips file_paths averaging) row x =
        some ((read_strip (file_paths.getD i default)
          (some (stripStart (outWidth file_paths) file_paths.length i))
          (some (stripEnd (outWidth file_paths) file_paths.length i))).2.2.val
            row (x - stripStart (outWidth file_paths) file_paths.length i))) := by
  have h := create_strips_strip_val file_paths averaging i row x hi hok hsx hxe
  constructor
  · intro hcond
    simp only [stripData] at h
    rw [if_pos hcond] at h
    exact h
  · intro hcond
    simp only [stripData] at h
    rw [if_neg hcond] at h
    exact h

theorem blend_guard_iff_witness :
    2 < imgsFive.length ∧
    isOk (create_strips imgsFive true) = true ∧
    stripStart (outWidth imgsFive) imgsFive.length 2 ≤ 2 ∧
    2 < stripEnd (outWidth imgsFive) imgsFive.length 2 ∧
    (((true = true ∧ 1 < 2 ∧ 2 < imgsFive.length - 2) →
      okRVal (create_strips imgsFive true) 0 2 =
        some ((stripBlend imgsFive 2
          (stripStart (outWidth imgsFive) imgsFive.length 2)
          (stripEnd (outWidth imgsFive) imgsFive.length 2)).1.val
            0 (2 - stripStart (outWidth imgsFive) imgsFive.length 2)) ∧
      okGVal (create_strips imgsFive true) 0 2 =
        some ((stripBlend imgsFive 2
          (stripStart (outWidth imgsFive) imgsFive.length 2)
          (stripEnd (outWidth imgsFive) imgsFive.length 2)).2.1.val
            0 (2 - stripStart (outWidth imgsFive) imgsFive.length 2)) ∧
      okBVal (create_strips imgsFive true) 0 2 =
        some ((stripBlend imgsFive 2
          (stripStart (outWidth imgsFive) imgsFive.length 2)
          (stripEnd (outWidth imgsFive) imgsFive.length 2)).2.2.val
            0 (2 - stripStart (outWidth imgsFive) imgsFive.length 2))) ∧
    (¬(true = true ∧ 1 < 2 ∧ 2 < imgsFive.length - 2) →
      okRVal (create_strips imgsFive true) 0 2 =
        some ((read_strip (imgsFive.getD 2 default)
          (some (stripStart (outWidth imgsFive) imgsFive.length 2))
          (some (stripEnd (outWidth imgsFive) imgsFive.length 2))).1.val
            0 (2 - stripStart (outWidth imgsFive) imgsFive.length 2)) ∧
      okGVal (create_strips imgsFive true) 0 2 =
        some ((read_strip (imgsFive.getD 2 default)
          (some (stripStart (outWidth imgsFive) imgsFive.length 2))
          (some (stripEnd (outWidth imgsFive) imgsFive.length 2))).2.1.val
            0 (2 - stripStart (outWidth imgsFive) imgsFive.length 2)) ∧
      okBVal (create_strips imgsFive true) 0 2 =
        some ((read_strip (imgsFive.getD 2 default)
          (some (stripStart (outWidth imgsFive) imgsFive.length 2))
          (some (stripEnd (outWidth imgsFive) imgsFive.length 2))).2.2.val
            0 (2 - stripStart (outWidth imgsFive) imgsFive.length 2)))) :=
  ⟨by decide, by decide, by decide, by decide,
   blend_guard_iff imgsFive true 2 0 2 (by decide) (by decide) (by decide)
     (by decide)⟩

/-- C2: with averaging on, at any index i with 1 < i < N - 2 the output
of create_strips on the columns of strip i equals, element-wise and
independently per channel, the five-term floor-divide-then-sum value
left2 // 5 + left // 5 + center // 5 + right // 5 + right2 // 5 of the
images at offsets -2, -1, 0, +1, +2 over the same column range. -/
theorem averaging_blend_formula (file_paths : List RGBImage) (i row x : Nat)
    (hu : UniformDims file_paths (outHeight file_paths) (outWidth file_paths))
    (hb : Bounded255 file_paths (outHeight file_paths) (outWidth file_paths))
    (hok : isOk (create_strips file_paths true) = true)
    (h1 : 1 < i) (h2 : i < file_paths.length - 2)
    (hrow : row < outHeight file_paths)
    (hsx : stripStart (outWidth file_paths) file_paths.length i ≤ x)
    (hxe : x < stripEnd (outWidth file_paths) file_paths.length i) :
    okRVal (create_strips file_paths true) row x =
      some ((file_paths.getD (i - 2) default).r.val row x / 5 +
        (file_paths.getD (i - 1) default).r.val row x / 5 +
        (file_paths.getD i default).r.val row x / 5 +
        (file_paths.getD (i + 1) default).r.val row x / 5 +
        (file_paths.getD (i + 2) default).r.val row x / 5) ∧
    okGVal (create_strips file_paths true) row x =
      some ((file_paths.getD (i - 2) default).g.val row x / 5 +
        (file_paths.getD (i - 1) default).g.val row x / 5 +
        (file_paths.getD i default).g.val row x / 5 +
        (file_paths.getD (i + 1) default).g.val row x / 5 +
        (file_paths.getD (i + 2) default).g.val row x / 5) ∧
    okBVal (create_strips file_paths true) row x =
      some ((file_paths.getD (i - 2) default).b.val row x / 5 +
        (file_paths.getD (i - 1) default).b.val row x / 5 +
        (file_paths.getD i default).b.val row x / 5 +
        (file_paths.getD (i + 1) default).b.val row x / 5 +
        (file_paths.getD (i + 2) default).b.val row x / 5) := by
  have hi : i < file_paths.length := by omega
  have h := create_strips_strip_val file_paths true i row x hi hok hsx hxe
  simp only [stripData] at h
  rw [if_pos ⟨trivial, h1, h2⟩] at h
  have hbv := stripBlend_val_eq file_paths (outHeight file_paths)
    (outWidth file_paths) i
    (stripStart (outWidth file_paths) file_paths.length i)
    (stripEnd (outWidth file_paths) file_paths.length i) row x hu hb
    (by omega) hrow (stripStart_le_width _ _ _ hi) hsx hxe
    (stripEnd_le_width _ _ _ hi)
  rw [hbv.1] at h
  rw [hbv.2.1] at h
  rw [hbv.2.2] at h
  exact h

theorem averaging_blend_formula_witness :
    UniformDims imgsBlend (outHeight imgsBlend) (outWidth imgsBlend) ∧
    Bounded255 imgsBlend (outHeight imgsBlend) (outWidth imgsBlend) ∧
    isOk (create_strips imgsBlend true) = true ∧
    1 < 2 ∧ 2 < imgsBlend.length - 2 ∧
    0 < outHeight imgsBlend ∧
    stripStart (outWidth imgsBlend) imgsBlend.length 2 ≤ 2 ∧
    2 < stripEnd (outWidth imgsBlend) imgsBlend.length 2 ∧
    (okRVal (create_strips imgsBlend true) 0 2 =
      some ((imgsBlend.getD 0 default).r.val 0 2 / 5 +
        (imgsBlend.getD 1 default).r.val 0 2 / 5 +
        (imgsBlend.getD 2 default).r.val 0 2 / 5 +
        (imgsBlend.getD 3 default).r.val 0 2 / 5 +
        (imgsBlend.getD 4 default).r.val 0 2 / 5) ∧
    okGVal (create_strips imgsBlend true) 0 2 =
      some ((imgsBlend.getD 0 default).g.val 0 2 / 5 +
        (imgsBlend.getD 1 default).g.val 0 2 / 5 +
        (imgsBlend.getD 2 default).g.val 0 2 / 5 +
        (imgsBlend.getD 3 default).g.val 0 2 / 5 +
        (imgsBlend.getD 4 default).g.val 0 2 / 5) ∧
    okBVal (create_strips imgsBlend true) 0 2 =
      some ((imgsBlend.getD 0 default).b.val 0 2 / 5 +
        (imgsBlend.getD 1 default).b.val 0 2 / 5 +
        (imgsBlend.getD 2 default).b.val 0 2 / 5 +
        (imgsBlend.getD 3 default).b.val 0 2 / 5 +
        (imgsBlend.getD 4 default).b.val 0 2 / 5)) :=
  ⟨by simp only [UniformDims]; decide, by simp only [Bounded255]; decide,
   by decide, by decide, by decide, by decide, by decide, by decide,
   averaging_blend_formula imgsBlend 2 0 2
     (by simp only [UniformDims]; decide) (by simp only [Bounded255]; decide)
     (by decide) (by decide) (by decide) (by decide) (by decide) (by decide)⟩

/-- C4 counterexample: on five 1-by-5 source images with averaging on,
the index N - 3 = 2 satisfies the guard 1 < i < N - 2, so its strip is
blended: the output sample at the strip is 1 while reading the same
range directly from source image 2 gives 5.  The claim that index N - 3
is excluded from blending and read directly is therefore false. -/
theorem n_minus_3_not_direct_read :
    imgsFive.length - 3 = 2 ∧
    okRVal (create_strips imgsFive true) 0 2 = some 1 ∧
    (read_strip (imgsFive.getD 2 default)
      (some (stripStart (outWidth imgsFive) imgsFive.length 2))
      (some (stripEnd (outWidth imgsFive) imgsFive.length 2))).1.val 0
        (2 - stripStart (outWidth imgsFive) imgsFive.length 2) = 5 := by
  decide

/-- C4 (amended): with averaging enabled, for every source list of
N >= 5 images the bound 1 < i < N - 2 ADMITS index N - 3 (which has two
valid neighbors on each side): the strip at index N - 3 satisfies the
guard and is produced by the Blend Step, not read directly; the indices
the upper bound excludes are N - 2 and N - 1. -/
theorem blend_includes_n_minus_3 (file_paths : List RGBImage) (row x : Nat)
    (h5 : 5 ≤ file_paths.length)
    (hok : isOk (create_strips file_paths true) = true)
    (hsx : stripStart (outWidth file_paths) file_paths.length
      (file_paths.length - 3) ≤ x)
    (hxe : x < stripEnd (outWidth file_paths) file_paths.length
      (file_paths.length - 3)) :
    (1 < file_paths.length - 3 ∧
      file_paths.length - 3 < file_paths.length - 2) ∧
    okRVal (create_strips file_paths true) row x =
      some ((stripBlend file_paths (file_paths.length - 3)
        (stripStart (outWidth file_paths) file_paths.length
          (file_paths.length - 3))
        (stripEnd (outWidth file_paths) file_paths.length
          (file_paths.length - 3))).1.val row
            (x - stripStart (outWidth file_paths) file_paths.length
              (file_paths.length - 3))) ∧
    okGVal (create_strips file_paths true) row x =
      some ((stripBlend file_paths (file_paths.length - 3)
        (stripStart (outWidth file_paths) file_paths.length
          (file_paths.length - 3))
        (stripEnd (outWidth file_paths) file_paths.length
          (file_paths.length - 3))).2.1.val row
            (x - stripStart (outWidth file_paths) file_paths.length
              (file_paths.length - 3))) ∧
    okBVal (create_strips file_paths true) row x =
      some ((stripBlend file_paths (file_paths.length - 3)
        (stripStart (outWidth file_paths) file_paths.length
          (file_paths.length - 3))
        (stripEnd (outWidth file_paths) file_paths.length
          (file_paths.length - 3))).2.2.val row
            (x - stripStart (outWidth file_paths) file_paths.length
              (file_paths.length - 3))) := by
  have hi : file_paths.length - 3 < file_paths.length := by omega
  have h := create_strips_strip_val file_paths true (file_paths.length - 3)
    row x hi hok hsx hxe
  simp only [stripData] at h
  rw [if_pos ⟨trivial, by omega, by omega⟩] at h
  exact ⟨⟨by omega, by omega⟩, h.1, h.2.1, h.2.2⟩

theorem blend_includes_n_minus_3_witness :
    5 ≤ imgsFive.length ∧
    isOk (create_strips imgsFive true) = true ∧
    stripStart (outWidth imgsFive) imgsFive.length
      (imgsFive.length - 3) ≤ 2 ∧
    2 < stripEnd (outWidth imgsFive) imgsFive.length (imgsFive.length - 3) ∧
    ((1 < imgsFive.length - 3 ∧
      imgsFive.length - 3 < imgsFive.length - 2) ∧
    okRVal (create_strips imgsFive true) 0 2 =
      some ((stripBlend imgsFive (imgsFive.length - 3)
        (stripStart (outWidth imgsFive) imgsFive.length
          (imgsFive.length - 3))
        (stripEnd (outWidth imgsFive) imgsFive.length
          (imgsFive.length - 3))).1.val 0
            (2 - stripStart (outWidth imgsFive) imgsFive.length
              (imgsFive.length - 3))) ∧
    okGVal (create_strips imgsFive true) 0 2 =
      some ((stripBlend imgsFive (imgsFive.length - 3)
        (stripStart (outWidth imgsFive) imgsFive.length
          (imgsFive.length - 3))
        (stripEnd (outWidth imgsFive) imgsFive.length
          (imgsFive.length - 3))).2.1.val 0
            (2 - stripStart (outWidth imgsFive) imgsFive.length
              (imgsFive.length - 3))) ∧
    okBVal (create_strips imgsFive true) 0 2 =
      some ((stripBlend imgsFive (imgsFive.length - 3)
        (stripStart (outWidth imgsFive) imgsFive.length
          (imgsFive.length - 3))
        (stripEnd (outWidth imgsFive) imgsFive.length
          (imgsFive.length - 3))).2.2.val 0
            (2 - stripStart (outWidth imgsFive) imgsFive.length
              (imgsFive.length - 3)))) :=
  ⟨by decide, by decide, by decide, by decide,
   blend_includes_n_minus_3 imgsFive 0 2 (by decide) (by decide) (by decide)
     (by decide)⟩
